import Mathlib

/-!
Shallow embedding of the regression-test helper module `utils.py` of the
openeo-benchmarks repository, together with proofs of its specification
claims.

Modelling conventions:
* Python dicts are insertion-ordered association lists
  (`List (String × _)`); `d[k]` and `k in d` become `List.lookup`.
* Numeric values are exact rationals (`ℚ`); every rational is finite,
  which models the finiteness of the 64-bit floats produced by the code
  on well-formed data.
* Raising an exception is returning `Except.error`; the logger is a side
  effect with no influence on control flow, except that warnings emitted
  by the comparator are collected explicitly because the spec talks
  about them.
-/

set_option autoImplicit false

namespace OpeneoBenchmarks

/-- Python exception values that the module can raise or propagate. -/
inductive PyError where
  | keyError (key : String)
  | typeError (msg : String)
  | valueError (msg : String)
  | assertionError (band stat : String)
  | ioError (msg : String)
  deriving DecidableEq, Repr

/-- A parsed JSON value, as produced by `json.load` on the reference file.
Numbers are modelled as exact rationals. -/
inductive JVal where
  | num (q : ℚ)
  | str (s : String)
  | bool (b : Bool)
  | null
  | arr (items : List JVal)
  | obj (fields : List (String × JVal))

/-- A per-band statistics dict: statistic name to numeric value. -/
abbrev Stats := List (String × ℚ)

/-- Band name to statistics dict, the shape produced by
`calculate_band_statistics` and expected of `reference_data`. -/
abbrev BandStats := List (String × Stats)

/-- A raster dataset opened with xarray: its data variables, each a band
name with the flattened list of its cell values. -/
structure Dataset where
  data_vars : List (String × List ℚ)

/-! ## pytest.approx

`assert output_stat == pytest.approx(gt_value, rel=tolerance)` compares
with tolerance `max(rel * abs(expected), abs_default)` where the
library-default absolute tolerance is `1e-12`. -/

/-- The library-default absolute tolerance of `pytest.approx` (1e-12). -/
def defaultAbsTol : ℚ := 1 / 1000000000000

/-- `pytest.approx(expected, rel=rel) == actual` for finite numbers:
true iff they are equal or their distance is at most
`max (rel * |expected|) defaultAbsTol`. -/
def pytestApprox (actual expected rel : ℚ) : Bool :=
  actual == expected
    || decide (|expected - actual| ≤ max (rel * |expected|) defaultAbsTol)

/-! ## StatisticsCalculator (`calculate_band_statistics`) -/

/-- Arithmetic mean of the values of a band (`band_data.mean()`). -/
def listMean (xs : List ℚ) : ℚ := xs.sum / (xs.length : ℚ)

/-- Population variance of the values of a band (`band_data.var()`,
numpy default `ddof=0`). -/
def listVar (xs : List ℚ) : ℚ :=
  ((xs.map fun x => (x - listMean xs) ^ 2).sum) / (xs.length : ℚ)

/-- Minimum of the values of a band (`band_data.min()`). -/
def listMin : List ℚ → ℚ
  | [] => 0
  | x :: xs => xs.foldl min x

/-- Maximum of the values of a band (`band_data.max()`). -/
def listMax : List ℚ → ℚ
  | [] => 0
  | x :: xs => xs.foldl max x

/-- Insert a value into an already sorted list, keeping it sorted. -/
def insertSorted (x : ℚ) : List ℚ → List ℚ
  | [] => [x]
  | y :: ys => if x ≤ y then x :: y :: ys else y :: insertSorted x ys

/-- Sort the values of a band ascending (insertion sort; numpy sorts the
data before interpolating a quantile). -/
def sortList (xs : List ℚ) : List ℚ := xs.foldr insertSorted []

/-- `band_data.quantile(q)` with the numpy default linear interpolation:
with the data sorted as `x_0 ≤ … ≤ x_(n-1)` and `h = q * (n - 1)`,
the result is `x_i + (h - i) * (x_(i+1) - x_i)` where `i = ⌊h⌋`. -/
def listQuantile (xs : List ℚ) (q : ℚ) : ℚ :=
  let s := sortList xs
  let n := s.length
  if n = 0 then 0
  else
    let h : ℚ := q * ((n : ℚ) - 1)
    let i : ℕ := (⌊h⌋).toNat
    let lo := s.getD i 0
    let hi := s.getD (i + 1) lo
    lo + (h - (i : ℚ)) * (hi - lo)

/-- The seven statistics computed for one band, in the insertion order of
the Python dict literal. -/
def bandStatistics (xs : List ℚ) : Stats :=
  [("mean", listMean xs),
   ("variance", listVar xs),
   ("min", listMin xs),
   ("max", listMax xs),
   ("quantile25", listQuantile xs (1/4)),
   ("quantile50", listQuantile xs (1/2)),
   ("quantile75", listQuantile xs (3/4))]

/-- `calculate_band_statistics`: statistics for every data variable of the
hypercube except "crs". -/
def calculate_band_statistics (hypercube : Dataset) : BandStats :=
  (hypercube.data_vars.filter fun p => p.1 != "crs").map
    fun p => (p.1, bandStatistics p.2)

/-! ## StatisticsComparator (`assert_band_statistics`)

The function logs warnings and either returns `None` or raises an
`AssertionError`; we return the list of warnings emitted together with
`none` (normal return) or `some (band, stat)` (the assertion that
failed). -/

/-- A warning logged by `assert_band_statistics`. -/
inductive Warn where
  | missingBand (band : String)
  | missingStat (band stat : String)
  deriving DecidableEq, Repr

/-- The inner loop of `assert_band_statistics`: iterate over the
statistics of the matching reference band; a statistic absent from the
output is logged and skipped; the first out-of-tolerance value raises. -/
def assertStatsLoop (tolerance : ℚ) (band : String) (outStats : Stats) :
    List (String × ℚ) → List Warn × Option (String × String)
  | [] => ([], none)
  | (stat, gtValue) :: rest =>
    match List.lookup stat outStats with
    | none =>
      let r := assertStatsLoop tolerance band outStats rest
      (Warn.missingStat band stat :: r.1, r.2)
    | some outputStat =>
      if pytestApprox outputStat gtValue tolerance then
        assertStatsLoop tolerance band outStats rest
      else
        ([], some (band, stat))

/-- The outer loop of `assert_band_statistics`: iterate over the computed
bands; a band absent from the reference is logged and skipped. -/
def assertBandsLoop (tolerance : ℚ) (groundtruth : BandStats) :
    List (String × Stats) → List Warn × Option (String × String)
  | [] => ([], none)
  | (band, outStats) :: rest =>
    match List.lookup band groundtruth with
    | none =>
      let r := assertBandsLoop tolerance groundtruth rest
      (Warn.missingBand band :: r.1, r.2)
    | some gtStats =>
      let s := assertStatsLoop tolerance band outStats gtStats
      match s.2 with
      | some f => (s.1, some f)
      | none =>
        let r := assertBandsLoop tolerance groundtruth rest
        (s.1 ++ r.1, r.2)

/-- `assert_band_statistics`: compare the computed band statistics with
the reference within the relative tolerance. -/
def assert_band_statistics (output_band_stats : BandStats)
    (groundtruth_band_dict : BandStats) (tolerance : ℚ) :
    List Warn × Option (String × String) :=
  assertBandsLoop tolerance groundtruth_band_dict output_band_stats

/-! ## ReferenceLoader (`extract_reference_band_statistics`) -/

/-- `extract_reference_band_statistics`, applied to the parsed contents
of the reference file (a JSON array of records): linearly scan for the
first record whose "scenario_name" equals the requested name and return
its "reference_data"; raise ValueError when the scan finds nothing.
A record that is not an object raises a TypeError from the subscript,
and an object without the accessed key raises a KeyError. -/
def extract_reference_band_statistics (all_reference_data : List JVal)
    (scenario_name : String) : Except PyError JVal :=
  match all_reference_data with
  | [] =>
    .error (.valueError
      ("No reference data found for scenario " ++ scenario_name))
  | scenario_data :: rest =>
    match scenario_data with
    | .obj fields =>
      match List.lookup "scenario_name" fields with
      | none => .error (.keyError "scenario_name")
      | some v =>
        match v with
        | .str s =>
          if s = scenario_name then
            match List.lookup "reference_data" fields with
            | none => .error (.keyError "reference_data")
            | some d => .ok d
          else extract_reference_band_statistics rest scenario_name
        | _ => extract_reference_band_statistics rest scenario_name
    | _ => .error (.typeError "record is not subscriptable by a string key")

/-! ## Orchestrator (`execute_and_assert`) -/

/-- Read a parsed "reference_data" JSON object into band statistics.
On the well-formed reference files described by the data model (an
object of objects of numbers) this is the identity; entries of any
other shape are dropped. -/
def bandStatsOfJVal : JVal → BandStats
  | .obj fields =>
    fields.map fun p =>
      (p.1,
        match p.2 with
        | .obj stats =>
          stats.filterMap fun q =>
            match q.2 with
            | .num x => some (q.1, x)
            | _ => none
        | _ => [])
  | _ => []

/-- `execute_and_assert`: run the batch job, open the resulting dataset,
compute its band statistics, load the reference for the scenario, and
compare. The two external effects (job execution and dataset opening)
are passed as their results; every exception of every step propagates
to the caller unchanged. The default tolerance is 0.01. -/
def execute_and_assert (executeBatch : Except PyError Unit)
    (openDataset : Except PyError Dataset)
    (referenceFile : List JVal) (scenario_name : String)
    (tolerance : ℚ := 1/100) : Except PyError Unit :=
  match executeBatch with
  | .error e => .error e
  | .ok () =>
    match openDataset with
    | .error e => .error e
    | .ok output_cube =>
      let output_band_stats := calculate_band_statistics output_cube
      match extract_reference_band_statistics referenceFile scenario_name with
      | .error e => .error e
      | .ok gt =>
        match assert_band_statistics output_band_stats
            (bandStatsOfJVal gt) tolerance with
        | (_, none) => .ok ()
        | (_, some (band, stat)) => .error (.assertionError band stat)

/-! ## Derived descriptions used to state the claims -/

/-- The seven statistic field names, in the order the calculator emits
them. -/
def statNames : List String :=
  ["mean", "variance", "min", "max", "quantile25", "quantile50",
   "quantile75"]

/-- The out-of-tolerance assertions of one band, in the order the inner
loop of the comparator meets them: statistics present in both the
reference band and the output band whose values differ beyond the
tolerance. -/
def statFailures (tolerance : ℚ) (band : String) (outStats : Stats) :
    List (String × ℚ) → List (String × String)
  | [] => []
  | (stat, gtValue) :: rest =>
    match List.lookup stat outStats with
    | none => statFailures tolerance band outStats rest
    | some v =>
      if pytestApprox v gtValue tolerance
      then statFailures tolerance band outStats rest
      else (band, stat) :: statFailures tolerance band outStats rest

/-- All out-of-tolerance assertions of a comparison, in the order the
comparator meets them. -/
def bandFailures (tolerance : ℚ) (groundtruth : BandStats) :
    List (String × Stats) → List (String × String)
  | [] => []
  | (band, outStats) :: rest =>
    (match List.lookup band groundtruth with
     | none => []
     | some gtStats => statFailures tolerance band outStats gtStats)
      ++ bandFailures tolerance groundtruth rest

/-- The missing-statistic warnings of one band, in order. -/
def statWarnings (band : String) (outStats : Stats) :
    List (String × ℚ) → List Warn
  | [] => []
  | (stat, _) :: rest =>
    match List.lookup stat outStats with
    | none => Warn.missingStat band stat :: statWarnings band outStats rest
    | some _ => statWarnings band outStats rest

/-- All missing-band and missing-statistic warnings of a comparison, in
order, assuming the traversal completes. -/
def bandWarnings (groundtruth : BandStats) :
    List (String × Stats) → List Warn
  | [] => []
  | (band, outStats) :: rest =>
    (match List.lookup band groundtruth with
     | none => [Warn.missingBand band]
     | some gtStats => statWarnings band outStats gtStats)
      ++ bandWarnings groundtruth rest

/-- Does this reference record match the requested scenario name? True
exactly when its "scenario_name" entry is the string `scenario_name`
(comparing a non-string JSON value with a Python string is `False`). -/
def recordMatches (scenario_name : String) : JVal → Bool
  | .obj fields =>
    match List.lookup "scenario_name" fields with
    | some (.str s) => s == scenario_name
    | _ => false
  | _ => false

/-- Is this JSON value an object with at least one field? -/
def isNonEmptyObj : JVal → Bool
  | .obj (_ :: _) => true
  | _ => false

/-- A reference record of the shape the data model describes: an object
with a string "scenario_name" and a non-empty object "reference_data". -/
def wellFormedRecord : JVal → Bool
  | .obj fields =>
    (match List.lookup "scenario_name" fields with
     | some (.str _) => true
     | _ => false)
    && (match List.lookup "reference_data" fields with
        | some d => isNonEmptyObj d
        | none => false)
  | _ => false

/-- The "reference_data" entry of a record, when the record is an object
that has one. -/
def referenceDataOf : JVal → Option JVal
  | .obj fields => List.lookup "reference_data" fields
  | _ => none

/-- The exception raised by evaluating `record["scenario_name"]` on a
record, when it raises one: a TypeError for a non-object and a KeyError
for an object without the key. -/
def scenarioNameAccessError : JVal → Option PyError
  | .obj fields =>
    match List.lookup "scenario_name" fields with
    | none => some (.keyError "scenario_name")
    | some _ => none
  | _ => some (.typeError "record is not subscriptable by a string key")

/-- The dataset of the worked example: a single band "B02" holding the
values [1, 2, 3, 4]. -/
def exampleDataset : Dataset := ⟨[("B02", [1, 2, 3, 4])]⟩

/-- The reference of the worked example. -/
def exampleReference : BandStats :=
  [("B02",
    [("mean", 5/2), ("variance", 5/4), ("min", 1), ("max", 4),
     ("quantile25", 7/4), ("quantile50", 5/2), ("quantile75", 13/4)])]

/-! ## Helper lemmas -/

/-- The comparison `pytest.approx` performs passes exactly when the
distance to the reference is within the relative tolerance or the
default absolute tolerance, whichever is larger. -/
theorem pytestApprox_iff (v r t : ℚ) :
    pytestApprox v r t = true ↔ |v - r| ≤ max (t * |r|) defaultAbsTol := by
  unfold pytestApprox
  rw [Bool.or_eq_true, beq_iff_eq, decide_eq_true_iff, abs_sub_comm r v]
  constructor
  · rintro (rfl | h)
    · have h0 : (0 : ℚ) ≤ defaultAbsTol := by norm_num [defaultAbsTol]
      simpa using le_max_of_le_right h0
    · exact h
  · exact Or.inr

/-- A value always passes the comparison against itself. -/
theorem pytestApprox_self (v t : ℚ) : pytestApprox v v t = true := by
  simp [pytestApprox]

/-- The inner comparator loop returns normally with no warning when
every reference statistic is found in the output with the very same
value. -/
theorem assertStatsLoop_ok (tolerance : ℚ) (band : String)
    (outStats : Stats) (gtStats : List (String × ℚ))
    (h : ∀ p ∈ gtStats, List.lookup p.1 outStats = some p.2) :
    assertStatsLoop tolerance band outStats gtStats = ([], none) := by
  induction gtStats with
  | nil => rfl
  | cons p rest ih =>
    obtain ⟨stat, v⟩ := p
    have hl : List.lookup stat outStats = some v := h (stat, v) (by simp)
    simp only [assertStatsLoop, hl, pytestApprox_self, if_true]
    exact ih fun q hq => h q (by simp [hq])

/-- The comparator returns normally with no warning when every computed
band appears in the reference and every statistic of that reference
band is found in the output band with the very same value. -/
theorem assert_band_statistics_ok (output groundtruth : BandStats)
    (tolerance : ℚ)
    (h : ∀ p ∈ output, ∃ g, List.lookup p.1 groundtruth = some g
        ∧ ∀ q ∈ g, List.lookup q.1 p.2 = some q.2) :
    assert_band_statistics output groundtruth tolerance = ([], none) := by
  unfold assert_band_statistics
  induction output with
  | nil => rfl
  | cons p rest ih =>
    obtain ⟨band, outStats⟩ := p
    obtain ⟨g, hg, hgs⟩ := h (band, outStats) (by simp)
    simp only [assertBandsLoop, hg,
      assertStatsLoop_ok tolerance band outStats g hgs]
    simpa using ih fun q hq => h q (by simp [hq])

/-- The outcome of the inner comparator loop is the head of the list of
its out-of-tolerance statistics. -/
theorem assertStatsLoop_failure (tolerance : ℚ) (band : String)
    (outStats : Stats) (gtStats : List (String × ℚ)) :
    (assertStatsLoop tolerance band outStats gtStats).2
      = (statFailures tolerance band outStats gtStats).head? := by
  induction gtStats with
  | nil => rfl
  | cons p rest ih =>
    obtain ⟨stat, gtValue⟩ := p
    cases hl : List.lookup stat outStats with
    | none => simpa [assertStatsLoop, statFailures, hl] using ih
    | some v =>
      by_cases hap : pytestApprox v gtValue tolerance
      · simpa [assertStatsLoop, statFailures, hl, hap] using ih
      · simp [assertStatsLoop, statFailures, hl, hap]

/-- When the inner comparator loop meets no out-of-tolerance statistic,
its warnings are exactly the missing-statistic warnings. -/
theorem assertStatsLoop_warnings (tolerance : ℚ) (band : String)
    (outStats : Stats) (gtStats : List (String × ℚ))
    (h : statFailures tolerance band outStats gtStats = []) :
    (assertStatsLoop tolerance band outStats gtStats).1
      = statWarnings band outStats gtStats := by
  induction gtStats with
  | nil => rfl
  | cons p rest ih =>
    obtain ⟨stat, gtValue⟩ := p
    cases hl : List.lookup stat outStats with
    | none =>
      rw [statFailures] at h
      simp only [hl] at h
      simpa [assertStatsLoop, statWarnings, hl] using ih h
    | some v =>
      by_cases hap : pytestApprox v gtValue tolerance
      · rw [statFailures] at h
        simp only [hl, hap, if_true] at h
        simpa [assertStatsLoop, statWarnings, hl, hap] using ih h
      · rw [statFailures] at h
        simp [hl, hap] at h

/-- The outcome of the comparator is the head of the list of its
out-of-tolerance statistics, across all bands. -/
theorem assertBandsLoop_failure (tolerance : ℚ) (groundtruth : BandStats)
    (output : List (String × Stats)) :
    (assertBandsLoop tolerance groundtruth output).2
      = (bandFailures tolerance groundtruth output).head? := by
  induction output with
  | nil => rfl
  | cons p rest ih =>
    obtain ⟨band, outStats⟩ := p
    cases hg : List.lookup band groundtruth with
    | none => simpa [assertBandsLoop, bandFailures, hg] using ih
    | some gtStats =>
      cases hs : (assertStatsLoop tolerance band outStats gtStats).2 with
      | some f =>
        have hsf := assertStatsLoop_failure tolerance band outStats gtStats
        rw [hs] at hsf
        cases hsfl : statFailures tolerance band outStats gtStats with
        | nil => rw [hsfl] at hsf; simp at hsf
        | cons a t =>
          rw [hsfl] at hsf
          simp only [List.head?_cons, Option.some.injEq] at hsf
          subst hsf
          simp [assertBandsLoop, bandFailures, hg, hs, hsfl]
      | none =>
        have hsf := assertStatsLoop_failure tolerance band outStats gtStats
        rw [hs] at hsf
        have hsfl : statFailures tolerance band outStats gtStats = [] :=
          List.head?_eq_none_iff.mp hsf.symm
        simp [assertBandsLoop, bandFailures, hg, hs, hsfl, ih]

/-- When the comparator meets no out-of-tolerance statistic, it returns
normally and its warnings are exactly the missing-band and
missing-statistic warnings. -/
theorem assertBandsLoop_warnings (tolerance : ℚ) (groundtruth : BandStats)
    (output : List (String × Stats))
    (h : bandFailures tolerance groundtruth output = []) :
    (assertBandsLoop tolerance groundtruth output).1
      = bandWarnings groundtruth output := by
  induction output with
  | nil => rfl
  | cons p rest ih =>
    obtain ⟨band, outStats⟩ := p
    cases hg : List.lookup band groundtruth with
    | none =>
      rw [bandFailures] at h
      simp only [hg, List.nil_append] at h
      simpa [assertBandsLoop, bandWarnings, hg] using ih h
    | some gtStats =>
      rw [bandFailures] at h
      simp only [hg, List.append_eq_nil] at h
      obtain ⟨h1, h2⟩ := h
      have hs : (assertStatsLoop tolerance band outStats gtStats).2 = none := by
        rw [assertStatsLoop_failure, h1]; rfl
      simp [assertBandsLoop, bandWarnings, hg, hs,
        assertStatsLoop_warnings tolerance band outStats gtStats h1, ih h2]

/-- Unpacking a well-formed reference record. -/
theorem wellFormedRecord_inv (r : JVal) (h : wellFormedRecord r = true) :
    ∃ fields s d, r = .obj fields
      ∧ List.lookup "scenario_name" fields = some (.str s)
      ∧ List.lookup "reference_data" fields = some d
      ∧ isNonEmptyObj d = true := by
  cases r with
  | obj fields =>
    simp only [wellFormedRecord, Bool.and_eq_true] at h
    obtain ⟨h1, h2⟩ := h
    cases hsn : List.lookup "scenario_name" fields with
    | none => rw [hsn] at h1; simp at h1
    | some v =>
      rw [hsn] at h1
      cases v with
      | str s =>
        cases hrd : List.lookup "reference_data" fields with
        | none => rw [hrd] at h2; simp at h2
        | some d =>
          rw [hrd] at h2
          exact ⟨fields, s, d, rfl, hsn, hrd, h2⟩
      | num q => simp at h1
      | bool b => simp at h1
      | null => simp at h1
      | arr xs => simp at h1
      | obj fs => simp at h1
  | num q => simp [wellFormedRecord] at h
  | str s => simp [wellFormedRecord] at h
  | bool b => simp [wellFormedRecord] at h
  | null => simp [wellFormedRecord] at h
  | arr xs => simp [wellFormedRecord] at h

/-- A record whose "scenario_name" access raises turns the whole scan
into that exception, whatever comes after it in the file. -/
theorem extract_cons_access_error (bad : JVal) (rest : List JVal)
    (scenario_name : String) (e : PyError)
    (hbad : scenarioNameAccessError bad = some e) :
    extract_reference_band_statistics (bad :: rest) scenario_name
      = .error e := by
  cases bad with
  | obj fields =>
    cases hsn : List.lookup "scenario_name" fields with
    | none =>
      simp only [scenarioNameAccessError, hsn, Option.some.injEq] at hbad
      subst hbad
      simp [extract_reference_band_statistics, hsn]
    | some v =>
      simp only [scenarioNameAccessError, hsn] at hbad
      simp at hbad
  | num q =>
    simp only [scenarioNameAccessError, Option.some.injEq] at hbad
    subst hbad; rfl
  | str s =>
    simp only [scenarioNameAccessError, Option.some.injEq] at hbad
    subst hbad; rfl
  | bool b =>
    simp only [scenarioNameAccessError, Option.some.injEq] at hbad
    subst hbad; rfl
  | null =>
    simp only [scenarioNameAccessError, Option.some.injEq] at hbad
    subst hbad; rfl
  | arr xs =>
    simp only [scenarioNameAccessError, Option.some.injEq] at hbad
    subst hbad; rfl

/-- The scan walks past a record that neither raises nor matches. -/
theorem extract_cons_skip (r : JVal) (rest : List JVal)
    (scenario_name : String)
    (hok : scenarioNameAccessError r = none)
    (hm : recordMatches scenario_name r = false) :
    extract_reference_band_statistics (r :: rest) scenario_name
      = extract_reference_band_statistics rest scenario_name := by
  cases r with
  | obj fields =>
    cases hsn : List.lookup "scenario_name" fields with
    | none =>
      simp only [scenarioNameAccessError, hsn] at hok
      simp at hok
    | some v =>
      cases v with
      | str s =>
        have hs : ¬(s = scenario_name) := by
          simpa [recordMatches, hsn] using hm
        simp [extract_reference_band_statistics, hsn, hs]
      | num q => simp [extract_reference_band_statistics, hsn]
      | bool b => simp [extract_reference_band_statistics, hsn]
      | null => simp [extract_reference_band_statistics, hsn]
      | arr xs => simp [extract_reference_band_statistics, hsn]
      | obj fs => simp [extract_reference_band_statistics, hsn]
  | num q => simp [scenarioNameAccessError] at hok
  | str s => simp [scenarioNameAccessError] at hok
  | bool b => simp [scenarioNameAccessError] at hok
  | null => simp [scenarioNameAccessError] at hok
  | arr xs => simp [scenarioNameAccessError] at hok

/-- The exception of a failing "scenario_name" access is a KeyError or
a TypeError, never a ValueError. -/
theorem scenarioNameAccessError_not_valueError (r : JVal) (e : PyError)
    (h : scenarioNameAccessError r = some e) :
    ∀ msg, e ≠ PyError.valueError msg := by
  cases r with
  | obj fields =>
    cases hsn : List.lookup "scenario_name" fields with
    | none =>
      simp only [scenarioNameAccessError, hsn, Option.some.injEq] at h
      subst h; intro msg hmsg; cases hmsg
    | some v =>
      simp only [scenarioNameAccessError, hsn] at h
      simp at h
  | num q =>
    simp only [scenarioNameAccessError, Option.some.injEq] at h
    subst h; intro msg hmsg; cases hmsg
  | str s =>
    simp only [scenarioNameAccessError, Option.some.injEq] at h
    subst h; intro msg hmsg; cases hmsg
  | bool b =>
    simp only [scenarioNameAccessError, Option.some.injEq] at h
    subst h; intro msg hmsg; cases hmsg
  | null =>
    simp only [scenarioNameAccessError, Option.some.injEq] at h
    subst h; intro msg hmsg; cases hmsg
  | arr xs =>
    simp only [scenarioNameAccessError, Option.some.injEq] at h
    subst h; intro msg hmsg; cases hmsg

/-- Looking a key up in an association list is unchanged by appending
an entry with a different key. -/
theorem lookup_append_single {β : Type} (k b : String) (x : β)
    (l : List (String × β)) (h : k ≠ b) :
    List.lookup k (l ++ [(b, x)]) = List.lookup k l := by
  induction l with
  | nil =>
    have hkb : (k == b) = false := by simp [h]
    simp [List.lookup, hkb]
  | cons p rest ih =>
    obtain ⟨q, w⟩ := p
    cases hk : (k == q) <;> simp [List.lookup, hk, ih]

/-- The comparator ignores a reference band that no computed band
carries: appending it to the reference changes nothing. -/
theorem assertBandsLoop_gt_extra (tolerance : ℚ) (groundtruth : BandStats)
    (b : String) (bs : Stats) (out : List (String × Stats))
    (hb : b ∉ out.map Prod.fst) :
    assertBandsLoop tolerance (groundtruth ++ [(b, bs)]) out
      = assertBandsLoop tolerance groundtruth out := by
  induction out with
  | nil => rfl
  | cons p rest ih =>
    obtain ⟨band, outStats⟩ := p
    simp only [List.map_cons, List.mem_cons, not_or] at hb
    obtain ⟨hb1, hb2⟩ := hb
    have hl := lookup_append_single band b bs groundtruth (Ne.symm hb1)
    cases hg : List.lookup band groundtruth with
    | none => simp [assertBandsLoop, hl, hg, ih hb2]
    | some gtStats => simp [assertBandsLoop, hl, hg, ih hb2]

/-- The inner comparator loop never reads an output statistic whose key
the reference band does not hold: appending such an entry to the output
band changes nothing. -/
theorem assertStatsLoop_out_extra (tolerance : ℚ) (band : String)
    (outStats : Stats) (k : String) (v : ℚ)
    (gtStats : List (String × ℚ)) (hk : k ∉ gtStats.map Prod.fst) :
    assertStatsLoop tolerance band (outStats ++ [(k, v)]) gtStats
      = assertStatsLoop tolerance band outStats gtStats := by
  induction gtStats with
  | nil => rfl
  | cons p rest ih =>
    obtain ⟨stat, gtValue⟩ := p
    simp only [List.map_cons, List.mem_cons, not_or] at hk
    obtain ⟨hk1, hk2⟩ := hk
    have hl := lookup_append_single stat k v outStats (Ne.symm hk1)
    cases hls : List.lookup stat outStats with
    | none => simp [assertStatsLoop, hl, hls, ih hk2]
    | some w =>
      by_cases hap : pytestApprox w gtValue tolerance <;>
        simp [assertStatsLoop, hl, hls, hap, ih hk2]

/-! ## Claims -/

/-- C1: for every computed value `v`, reference `r` and relative
tolerance `t`, the per-value comparison of `assert_band_statistics`
passes iff `|v - r| ≤ t * |r|` up to the library-default absolute
epsilon for near-zero references; a value exactly at the boundary
passes, and a value beyond the combined bound fails the assertion. -/
theorem assert_band_statistics_tolerance_boundary (v r t : ℚ)
    (ht : 0 ≤ t) :
    (pytestApprox v r t = true ↔ |v - r| ≤ max (t * |r|) defaultAbsTol)
    ∧ (|v - r| = t * |r| → pytestApprox v r t = true)
    ∧ (max (t * |r|) defaultAbsTol < |v - r| → pytestApprox v r t = false)
    ∧ ((assert_band_statistics [("B", [("s", v)])] [("B", [("s", r)])] t).2
        = if pytestApprox v r t then none else some ("B", "s")) := by
  refine ⟨pytestApprox_iff v r t, ?_, ?_, ?_⟩
  · intro hb
    exact (pytestApprox_iff v r t).mpr (hb ▸ le_max_left _ _)
  · intro hlt
    rw [← Bool.not_eq_true]
    intro htrue
    exact absurd ((pytestApprox_iff v r t).mp htrue) (not_le.mpr hlt)
  · cases hap : pytestApprox v r t <;>
      simp [assert_band_statistics, assertBandsLoop, assertStatsLoop,
        List.lookup, hap]

/-- Witness for C1 at `r = 1`, `t = 1/100`: the boundary value
`v = 101/100` passes and `v = 103/100` fails. -/
theorem assert_band_statistics_tolerance_boundary_witness :
    pytestApprox (101/100) 1 (1/100) = true
    ∧ pytestApprox (103/100) 1 (1/100) = false := by
  constructor
  · exact (assert_band_statistics_tolerance_boundary (101/100) 1 (1/100)
      (by norm_num)).2.1 (by rw [abs_of_nonneg] <;> norm_num [abs_of_nonneg])
  · exact (assert_band_statistics_tolerance_boundary (103/100) 1 (1/100)
      (by norm_num)).2.2.1
      (by rw [abs_of_nonneg] <;> norm_num [abs_of_nonneg, defaultAbsTol])

/-- C6: `calculate_band_statistics` is deterministic in its input
dataset: computing it twice on the same dataset yields identical
output. -/
theorem calculate_band_statistics_deterministic (hypercube : Dataset) :
    calculate_band_statistics hypercube = calculate_band_statistics hypercube :=
  rfl

/-- C9: for an empty computed statistics mapping,
`assert_band_statistics` returns normally (no warning, no assertion
failure) for every reference mapping and every tolerance. -/
theorem assert_band_statistics_empty_output (groundtruth : BandStats)
    (tolerance : ℚ) :
    assert_band_statistics [] groundtruth tolerance = ([], none) :=
  rfl

/-- C2: for every dataset, `calculate_band_statistics` returns one key
per data variable other than "crs", in order, and every key maps to a
record with exactly the seven statistic fields; every value is an exact
rational, hence finite. -/
theorem calculate_band_statistics_shape (hypercube : Dataset) :
    (calculate_band_statistics hypercube).map Prod.fst
      = (hypercube.data_vars.map Prod.fst).filter (fun s => s != "crs")
    ∧ ∀ p ∈ calculate_band_statistics hypercube,
        p.2.map Prod.fst = statNames := by
  constructor
  · unfold calculate_band_statistics
    induction hypercube.data_vars with
    | nil => rfl
    | cons hd tl ih =>
      by_cases h : hd.1 = "crs"
      · simp [List.filter_cons, h, ih]
      · simp [List.filter_cons, h, ih]
  · intro p hp
    unfold calculate_band_statistics at hp
    obtain ⟨q, _, rfl⟩ := List.mem_map.mp hp
    rfl

/-- Witness for C2 on a dataset with data variables "B02" and "crs":
only "B02" is reported, with the seven statistic fields. -/
theorem calculate_band_statistics_shape_witness :
    (calculate_band_statistics ⟨[("B02", [1, 2]), ("crs", [0])]⟩).map Prod.fst
      = ["B02"]
    ∧ ("B02", bandStatistics [1, 2]).2.map Prod.fst = statNames := by
  constructor
  · have h := (calculate_band_statistics_shape ⟨[("B02", [1, 2]), ("crs", [0])]⟩).1
    simpa using h
  · exact (calculate_band_statistics_shape ⟨[("B02", [1, 2]), ("crs", [0])]⟩).2
      ("B02", bandStatistics [1, 2]) (by simp [calculate_band_statistics])

/-- C3: on the dataset with the single band "B02" holding [1, 2, 3, 4],
the calculator returns mean 5/2, population variance 5/4, min 1, max 4
and quantiles 7/4, 5/2, 13/4, and comparing against the matching
reference with tolerance 1/100 raises no assertion failure. -/
theorem calculate_band_statistics_example :
    calculate_band_statistics exampleDataset
      = [("B02",
          [("mean", 5/2), ("variance", 5/4), ("min", 1), ("max", 4),
           ("quantile25", 7/4), ("quantile50", 5/2), ("quantile75", 13/4)])]
    ∧ assert_band_statistics (calculate_band_statistics exampleDataset)
        exampleReference (1/100) = ([], none) := by
  have hband : bandStatistics [1, 2, 3, 4]
      = [("mean", 5/2), ("variance", 5/4), ("min", 1), ("max", 4),
         ("quantile25", 7/4), ("quantile50", 5/2), ("quantile75", 13/4)] := by
    norm_num [bandStatistics, listMean, listVar, listMin, listMax,
      listQuantile, sortList, insertSorted, Int.toNat]
  have hcalc : calculate_band_statistics exampleDataset
      = [("B02",
          [("mean", 5/2), ("variance", 5/4), ("min", 1), ("max", 4),
           ("quantile25", 7/4), ("quantile50", 5/2), ("quantile75", 13/4)])] := by
    simp [calculate_band_statistics, exampleDataset, hband]
  refine ⟨hcalc, ?_⟩
  rw [hcalc]
  apply assert_band_statistics_ok
  intro p hp
  simp only [List.mem_singleton] at hp
  subst hp
  refine ⟨[("mean", 5/2), ("variance", 5/4), ("min", 1), ("max", 4),
    ("quantile25", 7/4), ("quantile50", 5/2), ("quantile75", 13/4)], ?_, ?_⟩
  · simp [exampleReference, List.lookup]
  · intro q hq
    simp only [List.mem_cons, List.not_mem_nil, or_false] at hq
    rcases hq with rfl | rfl | rfl | rfl | rfl | rfl | rfl <;>
      simp [List.lookup]

/-- C5: a band or statistic missing on one side is logged as a warning
and skipped without raising — when the comparison meets no
out-of-tolerance value it returns normally with exactly the
missing-entry warnings — while an out-of-tolerance value always raises
the assertion at the first such value in traversal order, without
aggregating the remaining mismatches. -/
theorem assert_band_statistics_first_failure
    (output groundtruth : BandStats) (tolerance : ℚ) :
    (assert_band_statistics output groundtruth tolerance).2
      = (bandFailures tolerance groundtruth output).head?
    ∧ (bandFailures tolerance groundtruth output = [] →
        (assert_band_statistics output groundtruth tolerance).1
          = bandWarnings groundtruth output) :=
  ⟨assertBandsLoop_failure tolerance groundtruth output,
   fun h => assertBandsLoop_warnings tolerance groundtruth output h⟩

/-- Witness for C5: a comparison with a missing band "A", a missing
statistic "max" and an out-of-tolerance "min" fails at ("B", "min");
one with only missing entries returns with the warnings. -/
theorem assert_band_statistics_first_failure_witness :
    (assert_band_statistics
        [("A", [("mean", 1)]), ("B", [("mean", 1), ("min", 1)])]
        [("B", [("mean", 1), ("max", 2), ("min", 5)])] (1/100)).2
      = some ("B", "min")
    ∧ (assert_band_statistics [("A", [("mean", 1)])]
        [("B", [("mean", 1)])] (1/100)).1
      = [Warn.missingBand "A"] := by
  constructor
  · rw [(assert_band_statistics_first_failure
      [("A", [("mean", 1)]), ("B", [("mean", 1), ("min", 1)])]
      [("B", [("mean", 1), ("max", 2), ("min", 5)])] (1/100)).1]
    simp [bandFailures, statFailures, List.lookup, pytestApprox,
      defaultAbsTol]
    norm_num [abs_of_nonneg]
  · rw [(assert_band_statistics_first_failure [("A", [("mean", 1)])]
      [("B", [("mean", 1)])] (1/100)).2
      (by simp [bandFailures, statFailures, List.lookup])]
    simp [bandWarnings, statWarnings, List.lookup]

/-- C4: on a reference file whose records are all well formed, the
loader returns the (non-empty) reference_data of the first record whose
scenario_name matches the requested name, and raises the not-found
ValueError when no record matches. -/
theorem extract_reference_first_match (data : List JVal)
    (scenario_name : String)
    (hwf : ∀ r ∈ data, wellFormedRecord r = true) :
    (∀ r, data.find? (recordMatches scenario_name) = some r →
        ∃ d, referenceDataOf r = some d
          ∧ extract_reference_band_statistics data scenario_name = .ok d
          ∧ isNonEmptyObj d = true)
    ∧ (data.find? (recordMatches scenario_name) = none →
        extract_reference_band_statistics data scenario_name
          = .error (.valueError
              ("No reference data found for scenario " ++ scenario_name))) := by
  induction data with
  | nil =>
    refine ⟨?_, fun _ => rfl⟩
    intro r hr
    simp at hr
  | cons a rest ih =>
    obtain ⟨fields, s, d, rfl, hsn, hrd, hne⟩ :=
      wellFormedRecord_inv a (hwf a (by simp))
    have hrest : ∀ r ∈ rest, wellFormedRecord r = true :=
      fun r hr => hwf r (by simp [hr])
    by_cases hs : s = scenario_name
    · subst hs
      have hm : recordMatches s (JVal.obj fields) = true := by
        simp [recordMatches, hsn]
      have hex : extract_reference_band_statistics (JVal.obj fields :: rest) s
          = .ok d := by
        simp [extract_reference_band_statistics, hsn, hrd]
      constructor
      · intro r hr
        rw [List.find?_cons_of_pos _ hm] at hr
        injection hr with hr
        subst hr
        exact ⟨d, by simp [referenceDataOf, hrd], hex, hne⟩
      · intro hr
        rw [List.find?_cons_of_pos _ hm] at hr
        simp at hr
    · have hm : ¬recordMatches scenario_name (JVal.obj fields) = true := by
        simp [recordMatches, hsn]
        exact hs
      have hex : extract_reference_band_statistics (JVal.obj fields :: rest)
            scenario_name
          = extract_reference_band_statistics rest scenario_name := by
        simp [extract_reference_band_statistics, hsn, hs]
      constructor
      · intro r hr
        rw [List.find?_cons_of_neg _ hm] at hr
        obtain ⟨d', hd', hex', hne'⟩ := (ih hrest).1 r hr
        exact ⟨d', hd', by rw [hex]; exact hex', hne'⟩
      · intro hr
        rw [List.find?_cons_of_neg _ hm] at hr
        rw [hex]
        exact (ih hrest).2 hr

/-- Witness for C4 on a one-record file: the present scenario "s1"
yields its reference_data, the absent scenario "s2" the not-found
ValueError. -/
theorem extract_reference_first_match_witness :
    extract_reference_band_statistics
        [JVal.obj [("scenario_name", JVal.str "s1"),
          ("reference_data", JVal.obj [("B02", JVal.obj [("mean", JVal.num 1)])])]]
        "s1"
      = .ok (JVal.obj [("B02", JVal.obj [("mean", JVal.num 1)])])
    ∧ extract_reference_band_statistics
        [JVal.obj [("scenario_name", JVal.str "s1"),
          ("reference_data", JVal.obj [("B02", JVal.obj [("mean", JVal.num 1)])])]]
        "s2"
      = .error (.valueError
          ("No reference data found for scenario " ++ "s2")) := by
  constructor
  · obtain ⟨d, hd, hex, hne⟩ :=
      (extract_reference_first_match
        [JVal.obj [("scenario_name", JVal.str "s1"),
          ("reference_data", JVal.obj [("B02", JVal.obj [("mean", JVal.num 1)])])]]
        "s1"
        (by intro r hr; simp only [List.mem_singleton] at hr; subst hr
            simp [wellFormedRecord, List.lookup, isNonEmptyObj])).1
        (JVal.obj [("scenario_name", JVal.str "s1"),
          ("reference_data", JVal.obj [("B02", JVal.obj [("mean", JVal.num 1)])])])
        (by simp [recordMatches, List.lookup])
    have hdval : d = JVal.obj [("B02", JVal.obj [("mean", JVal.num 1)])] := by
      simp [referenceDataOf, List.lookup] at hd
      exact hd.symm
    rw [hdval] at hex
    exact hex
  · exact (extract_reference_first_match
      [JVal.obj [("scenario_name", JVal.str "s1"),
        ("reference_data", JVal.obj [("B02", JVal.obj [("mean", JVal.num 1)])])]]
      "s2"
      (by intro r hr; simp only [List.mem_singleton] at hr; subst hr
          simp [wellFormedRecord, List.lookup, isNonEmptyObj])).2
      (by simp [recordMatches, List.lookup])

/-- C10: when the scan reaches a record on which the "scenario_name"
access raises (a non-object record, or an object without the key), the
loader raises that lookup/type error — never the not-found ValueError —
even when a later record would have matched. -/
theorem extract_reference_malformed_record (pre rest : List JVal)
    (bad : JVal) (scenario_name : String) (e : PyError)
    (hpre : ∀ r ∈ pre, scenarioNameAccessError r = none
        ∧ recordMatches scenario_name r = false)
    (hbad : scenarioNameAccessError bad = some e) :
    extract_reference_band_statistics (pre ++ bad :: rest) scenario_name
      = .error e
    ∧ ∀ msg, e ≠ PyError.valueError msg := by
  refine ⟨?_, scenarioNameAccessError_not_valueError bad e hbad⟩
  induction pre with
  | nil => exact extract_cons_access_error bad rest scenario_name e hbad
  | cons r pre' ih =>
    obtain ⟨hok, hm⟩ := hpre r (by simp)
    rw [List.cons_append, extract_cons_skip r _ _ hok hm]
    exact ih fun q hq => hpre q (by simp [hq])

/-- Witness for C10: a record without "scenario_name" placed before a
record that matches "s1" makes the lookup raise a KeyError, not the
not-found ValueError. -/
theorem extract_reference_malformed_record_witness :
    extract_reference_band_statistics
        [JVal.obj [("name", JVal.str "oops")],
         JVal.obj [("scenario_name", JVal.str "s1"),
          ("reference_data", JVal.obj [("B02", JVal.num 1)])]]
        "s1"
      = .error (.keyError "scenario_name") :=
  (extract_reference_malformed_record []
    [JVal.obj [("scenario_name", JVal.str "s1"),
      ("reference_data", JVal.obj [("B02", JVal.num 1)])]]
    (JVal.obj [("name", JVal.str "oops")]) "s1" (.keyError "scenario_name")
    (by simp)
    (by simp [scenarioNameAccessError, List.lookup])).1

/-- C7: every exception of every step of `execute_and_assert` — job
execution, dataset opening, reference loading, or an out-of-tolerance
comparison — reaches the caller unchanged, with no translation to a
distinct error type; and when the tolerance argument is omitted, the
comparison uses relative tolerance 0.01. -/
theorem execute_and_assert_propagates (executeBatch : Except PyError Unit)
    (openDataset : Except PyError Dataset) (referenceFile : List JVal)
    (scenario_name : String) (tolerance : ℚ) :
    (∀ e, executeBatch = .error e →
        execute_and_assert executeBatch openDataset referenceFile
          scenario_name tolerance = .error e)
    ∧ (∀ e, executeBatch = .ok () → openDataset = .error e →
        execute_and_assert executeBatch openDataset referenceFile
          scenario_name tolerance = .error e)
    ∧ (∀ e ds, executeBatch = .ok () → openDataset = .ok ds →
        extract_reference_band_statistics referenceFile scenario_name
          = .error e →
        execute_and_assert executeBatch openDataset referenceFile
          scenario_name tolerance = .error e)
    ∧ (∀ ds gt band stat, executeBatch = .ok () → openDataset = .ok ds →
        extract_reference_band_statistics referenceFile scenario_name
          = .ok gt →
        (assert_band_statistics (calculate_band_statistics ds)
          (bandStatsOfJVal gt) tolerance).2 = some (band, stat) →
        execute_and_assert executeBatch openDataset referenceFile
          scenario_name tolerance = .error (.assertionError band stat))
    ∧ execute_and_assert executeBatch openDataset referenceFile
        scenario_name
      = execute_and_assert executeBatch openDataset referenceFile
          scenario_name (1/100) := by
  refine ⟨?_, ?_, ?_, ?_, rfl⟩
  · intro e he
    subst he
    rfl
  · intro e he ho
    subst he; subst ho
    rfl
  · intro e ds he ho hx
    subst he; subst ho
    simp [execute_and_assert, hx]
  · intro ds gt band stat he ho hx ha
    subst he; subst ho
    simp only [execute_and_assert, hx]
    rw [show assert_band_statistics (calculate_band_statistics ds)
        (bandStatsOfJVal gt) tolerance
      = ((assert_band_statistics (calculate_band_statistics ds)
          (bandStatsOfJVal gt) tolerance).1,
         (assert_band_statistics (calculate_band_statistics ds)
          (bandStatsOfJVal gt) tolerance).2) from rfl, ha]

/-- Witness for C7: a failing batch job propagates its own exception,
unchanged, through the orchestrator. -/
theorem execute_and_assert_propagates_witness :
    execute_and_assert (.error (.ioError "job failed")) (.ok ⟨[]⟩) [] "s"
        (1/100)
      = .error (.ioError "job failed") :=
  (execute_and_assert_propagates (.error (.ioError "job failed"))
    (.ok ⟨[]⟩) [] "s" (1/100)).1 (.ioError "job failed") rfl

/-- C8: comparison coverage is asymmetric. A reference band absent from
the computed output is ignored entirely — no warning, no error — and a
computed statistic key absent from the reference band is never checked,
because the statistic loop iterates over the keys of the reference
only: neither addition changes the result of the comparison at all. -/
theorem assert_band_statistics_asymmetric_coverage
    (o1 o2 : List (String × Stats)) (groundtruth : BandStats)
    (tolerance : ℚ) (band : String) (outStats : Stats) (gtStats : Stats)
    (k : String) (v : ℚ) (b : String) (bs : Stats)
    (hgt : List.lookup band groundtruth = some gtStats)
    (hk : k ∉ gtStats.map Prod.fst)
    (hb : b ∉ (o1 ++ (band, outStats) :: o2).map Prod.fst) :
    assert_band_statistics (o1 ++ (band, outStats ++ [(k, v)]) :: o2)
        (groundtruth ++ [(b, bs)]) tolerance
      = assert_band_statistics (o1 ++ (band, outStats) :: o2)
          groundtruth tolerance := by
  unfold assert_band_statistics
  induction o1 with
  | nil =>
    simp only [List.nil_append, List.map_cons, List.mem_cons, not_or] at hb ⊢
    obtain ⟨hb1, hb2⟩ := hb
    have hl := lookup_append_single band b bs groundtruth (Ne.symm hb1)
    simp [assertBandsLoop, hl, hgt,
      assertStatsLoop_out_extra tolerance band outStats k v gtStats hk,
      assertBandsLoop_gt_extra tolerance groundtruth b bs o2 hb2]
  | cons p rest ih =>
    obtain ⟨band', outStats'⟩ := p
    simp only [List.cons_append, List.map_cons, List.mem_cons, not_or] at hb ⊢
    obtain ⟨hb1, hb2⟩ := hb
    have hl := lookup_append_single band' b bs groundtruth (Ne.symm hb1)
    cases hg : List.lookup band' groundtruth with
    | none => simp [assertBandsLoop, hl, hg, ih hb2]
    | some g => simp [assertBandsLoop, hl, hg, ih hb2]

/-- Witness for C8: adding an unrelated statistic "extra" to the output
band and an unrelated band "B03" to the reference leaves the comparison
result unchanged. -/
theorem assert_band_statistics_asymmetric_coverage_witness :
    assert_band_statistics [("B02", [("mean", 1), ("extra", 9)])]
        [("B02", [("mean", 1)]), ("B03", [("mean", 2)])] (1/100)
      = assert_band_statistics [("B02", [("mean", 1)])]
          [("B02", [("mean", 1)])] (1/100) :=
  assert_band_statistics_asymmetric_coverage [] [] [("B02", [("mean", 1)])]
    (1/100) "B02" [("mean", 1)] [("mean", 1)] "extra" 9 "B03" [("mean", 2)]
    (by simp [List.lookup]) (by simp) (by simp)

end OpeneoBenchmarks
